import Mathlib

/-!
Shallow embedding of `src/App.tsx` (GreetingWidget): the greeting state
record, the request orchestrator `generateGreeting`, the result renderer,
and the submission-button guard, together with proofs of the specified
properties.
-/

namespace GreetingWidget

/-- The `GreetingData` interface from `src/App.tsx` (lines 6-10):
`{ text: string; isLoading: boolean; error: string | null }`. -/
structure GreetingData where
  text : String
  isLoading : Bool
  error : Option String
  deriving DecidableEq, Repr

/-- JavaScript whitespace characters removed by `String.prototype.trim`. -/
def isJsWhitespace (c : Char) : Bool :=
  c = ' ' || c = '\t' || c = '\n' || c = '\r' || c = '\x0b' || c = '\x0c' ||
  c = '\u00A0' || c = '\uFEFF' || c = '\u2028' || c = '\u2029'

/-- JavaScript `name.trim()`: strip leading and trailing whitespace. -/
def jsTrim (s : String) : String :=
  ⟨((s.data.dropWhile isJsWhitespace).reverse.dropWhile isJsWhitespace).reverse⟩

/-- The fixed fallback greeting substituted for a falsy payload (line 36). -/
def fallbackText : String := "Hello World! (Fallback)"

/-- The fixed user-facing failure message (line 47). -/
def errorMessage : String := "Failed to generate greeting. Please try again later."

/-- The fixed model identifier passed to the API (line 28). -/
def modelId : String := "gemini-3-flash-preview"

/-- The instruction template interpolated with the component's `name`
state (line 29). Note the source interpolates the raw `name`, not
`name.trim()`. -/
def promptFor (name : String) : String :=
  "Generate a creative, friendly \"Hello World\" style greeting for a person named "
    ++ name ++ ". Keep it concise but enthusiastic."

/-- The `config` object of the `generateContent` call (lines 30-33). -/
structure SamplingConfig where
  temperature : ℚ
  topP : ℚ
  deriving DecidableEq, Repr

/-- The argument record of `ai.models.generateContent` (lines 27-34). -/
structure ApiRequest where
  model : String
  contents : String
  config : SamplingConfig
  deriving DecidableEq, Repr

/-- The request the orchestrator sends for a given `name` state. -/
def requestFor (name : String) : ApiRequest :=
  { model := modelId
    contents := promptFor name
    config := { temperature := 0.8, topP := 0.9 } }

/-- Outcome of the awaited API call: a resolved response whose `text`
field may be absent (`undefined`) or any string, or a rejection carrying
the thrown error. -/
inductive ApiResult where
  | success (payload : Option String)
  | failure (err : String)
  deriving DecidableEq, Repr

/-- `response.text || "Hello World! (Fallback)"` (line 36): JavaScript
`||` falls through to the fallback exactly when `response.text` is
`undefined` or the empty string. -/
def payloadText : Option String → String
  | none => fallbackText
  | some s => if s = "" then fallbackText else s

/-- The loading update (line 23):
`setGreeting(prev => ({ ...prev, isLoading: true, error: null }))`. -/
def loadingState (prev : GreetingData) : GreetingData :=
  { prev with isLoading := true, error := none }

/-- The resolution update: lines 37-41 on success, lines 44-48 on
rejection. Both replace every field; neither reads the previous state. -/
def resolvedState : ApiResult → GreetingData
  | .success p => { text := payloadText p, isLoading := false, error := none }
  | .failure _ => { text := "", isLoading := false, error := some errorMessage }

/-- The diagnostic output: `console.error("Gemini Error:", err)` on the
rejection path (line 43), nothing on success. -/
def diagnosticsOf : ApiResult → List (String × String)
  | .success _ => []
  | .failure e => [("Gemini Error:", e)]

/-- Observable effects of one run of `generateGreeting`: the successive
`setGreeting` updates in order, the API call if one is made, and the
console diagnostics. -/
structure RunResult where
  states : List GreetingData
  apiCall : Option ApiRequest
  diagnostics : List (String × String)
  deriving DecidableEq, Repr

/-- One run of `generateGreeting` (lines 20-50), given the `name` state,
the outcome `api` of the awaited call, and the greeting state `prev` at
dispatch time. If `name` trims to empty the run returns immediately
(line 21); otherwise it issues the loading update, performs the API call,
and issues exactly one resolution update. -/
def generateGreeting (name : String) (api : ApiResult) (prev : GreetingData) :
    RunResult :=
  if jsTrim name = "" then
    { states := [], apiCall := none, diagnostics := [] }
  else
    { states := [loadingState prev, resolvedState api]
      apiCall := some (requestFor name)
      diagnostics := diagnosticsOf api }

/-- The greeting state after a run completes: the last `setGreeting`
update, or the unchanged prior state when the run was a no-op. -/
def finalGreeting (name : String) (api : ApiResult) (prev : GreetingData) :
    GreetingData :=
  ((generateGreeting name api prev).states).getLastD prev

/-- The three mutually exclusive outputs of the result area (lines
105-117). -/
inductive RenderOutput where
  | errorMsg (msg : String)
  | greetingText (t : String)
  | placeholder
  deriving DecidableEq, Repr

/-- JavaScript truthiness of a `string | null` value: `null` and `""`
are falsy. -/
def truthyStr : Option String → Bool
  | none => false
  | some s => !(s == "")

/-- The result area (lines 106-116):
`greeting.error ? <error> : greeting.text ? <quoted text> : <placeholder>`.
The conditions are JavaScript truthiness tests. -/
def renderResult (g : GreetingData) : RenderOutput :=
  if truthyStr g.error then .errorMsg (g.error.getD "")
  else if g.text == "" then .placeholder
  else .greetingText g.text

/-- The button guard (line 89):
`disabled={greeting.isLoading || !name.trim()}`. -/
def buttonDisabled (g : GreetingData) (name : String) : Bool :=
  g.isLoading || (jsTrim name == "")

/-- The initial greeting state (lines 14-18). -/
def initialGreeting : GreetingData :=
  { text := "", isLoading := false, error := none }

/-- Greeting states reachable from the initial state through the
orchestrator's updates: every state that some run issues from a
reachable state is reachable. -/
inductive Reachable : GreetingData → Prop where
  | init : Reachable initialGreeting
  | step (name : String) (api : ApiResult) {s t : GreetingData} :
      Reachable s → t ∈ (generateGreeting name api s).states → Reachable t

end GreetingWidget

namespace GreetingWidget

/-- Helper: a run from a non-noop input issues exactly the loading update
followed by the resolution update. -/
theorem run_states_eq (name : String) (api : ApiResult) (prev : GreetingData)
    (h : jsTrim name ≠ "") :
    (generateGreeting name api prev).states = [loadingState prev, resolvedState api] := by
  simp [generateGreeting, h]

/-- C1: for every submission whose API call resolves successfully, the
final Greeting Result is set in one atomic update to
`{ text := payload-or-fallback, isLoading := false, error := none }`,
where the fallback replaces an absent or empty payload. -/
theorem success_final_update (name : String) (p : Option String)
    (prev : GreetingData) (h : jsTrim name ≠ "") :
    (generateGreeting name (.success p) prev).states =
      [loadingState prev,
        { text := payloadText p, isLoading := false, error := none }] ∧
    payloadText none = fallbackText ∧ payloadText (some "") = fallbackText := by
  refine ⟨?_, rfl, rfl⟩
  simp [generateGreeting, h, resolvedState]

/-- Witness for C1: concrete run on name `"Alice"` with an empty payload. -/
theorem success_final_update_witness :
    (generateGreeting "Alice" (.success (some "")) initialGreeting).states =
      [loadingState initialGreeting,
        { text := payloadText (some ""), isLoading := false, error := none }] ∧
    payloadText none = fallbackText ∧ payloadText (some "") = fallbackText :=
  success_final_update "Alice" (some "") initialGreeting (by decide)

/-- C2: for every submission whose API call rejects, the final Greeting
Result is exactly `{ text := "", isLoading := false, error := some
errorMessage }`, the thrown error reaches only the console diagnostics,
and the rendered output shows the fixed message, not the thrown error. -/
theorem failure_final_update (name e : String) (prev : GreetingData)
    (h : jsTrim name ≠ "") :
    (generateGreeting name (.failure e) prev).states =
      [loadingState prev,
        { text := "", isLoading := false, error := some errorMessage }] ∧
    (generateGreeting name (.failure e) prev).diagnostics = [("Gemini Error:", e)] ∧
    renderResult { text := "", isLoading := false, error := some errorMessage } =
      .errorMsg errorMessage := by
  refine ⟨?_, ?_, by decide⟩
  · simp [generateGreeting, h, resolvedState]
  · simp [generateGreeting, h, diagnosticsOf]

/-- Witness for C2: concrete failing run on name `"Alice"`. -/
theorem failure_final_update_witness :
    (generateGreeting "Alice" (.failure "boom") initialGreeting).states =
      [loadingState initialGreeting,
        { text := "", isLoading := false, error := some errorMessage }] ∧
    (generateGreeting "Alice" (.failure "boom") initialGreeting).diagnostics =
      [("Gemini Error:", "boom")] ∧
    renderResult { text := "", isLoading := false, error := some errorMessage } =
      .errorMsg errorMessage :=
  failure_final_update "Alice" "boom" initialGreeting (by decide)

/-- C3: for every input that trims to empty, submission is a no-op: no
state update is issued, no API call is made, and the greeting state is
unchanged. -/
theorem empty_input_noop (name : String) (api : ApiResult) (prev : GreetingData)
    (h : jsTrim name = "") :
    (generateGreeting name api prev).states = [] ∧
    (generateGreeting name api prev).apiCall = none ∧
    finalGreeting name api prev = prev := by
  refine ⟨?_, ?_, ?_⟩ <;> simp [generateGreeting, finalGreeting, h]

/-- Witness for C3: concrete no-op run on the whitespace-only input. -/
theorem empty_input_noop_witness :
    (generateGreeting "  " (.success (some "hi")) initialGreeting).states = [] ∧
    (generateGreeting "  " (.success (some "hi")) initialGreeting).apiCall = none ∧
    finalGreeting "  " (.success (some "hi")) initialGreeting = initialGreeting :=
  empty_input_noop "  " (.success (some "hi")) initialGreeting (by decide)

/-- C4: for every input that does not trim to empty, the first issued
state update is exactly `{ text := prev.text, isLoading := true,
error := none }`: loading set, error cleared, text untouched, and no
other field exists to change. -/
theorem dispatch_first_update (name : String) (api : ApiResult)
    (prev : GreetingData) (h : jsTrim name ≠ "") :
    (generateGreeting name api prev).states.head? =
      some { text := prev.text, isLoading := true, error := none } := by
  simp [generateGreeting, h, loadingState]

/-- Witness for C4: concrete dispatch from a state carrying stale text
and a stale error. -/
theorem dispatch_first_update_witness :
    (generateGreeting "Alice" (.success none)
        { text := "old", isLoading := false, error := some "stale" }).states.head? =
      some { text := "old", isLoading := true, error := none } :=
  dispatch_first_update "Alice" (.success none)
    { text := "old", isLoading := false, error := some "stale" } (by decide)

/-- Counterexample for C5: the prompt embeds the raw input, not the
trimmed input. On input `"Alice "` the request's `contents` is the
template applied to `"Alice "`, which differs from the template applied
to the trimmed name `"Alice"`. -/
theorem prompt_untrimmed_counterexample :
    ((generateGreeting "Alice " (.success none) initialGreeting).apiCall.map
        ApiRequest.contents) = some (promptFor "Alice ") ∧
    promptFor "Alice " ≠ promptFor (jsTrim "Alice ") := by
  constructor
  · simp [generateGreeting, requestFor, show jsTrim "Alice " ≠ "" from by decide]
  · decide

/-- C5 (amended): for every submission passing the emptiness check, the
API is invoked with the fixed model identifier, the fixed instruction
template applied to the raw (untrimmed) input name, and the fixed
sampling configuration temperature 0.8, top-p 0.9. -/
theorem api_request_shape (name : String) (api : ApiResult)
    (prev : GreetingData) (h : jsTrim name ≠ "") :
    (generateGreeting name api prev).apiCall =
      some { model := "gemini-3-flash-preview"
             contents := promptFor name
             config := { temperature := 0.8, topP := 0.9 } } := by
  simp [generateGreeting, h, requestFor, modelId]

/-- Witness for C5: concrete request for name `"Bob"`. -/
theorem api_request_shape_witness :
    (generateGreeting "Bob" (.success none) initialGreeting).apiCall =
      some { model := "gemini-3-flash-preview"
             contents := promptFor "Bob"
             config := { temperature := 0.8, topP := 0.9 } } :=
  api_request_shape "Bob" (.success none) initialGreeting (by decide)

/-- Counterexample for C6: the renderer tests JavaScript truthiness, not
nullity, of `error`. On the state `{ text := "kk", isLoading := false,
error := some "" }` the error field is non-null, yet the renderer shows
the greeting text rather than the error message. -/
theorem render_empty_error_counterexample :
    ({ text := "kk", isLoading := false, error := some "" } : GreetingData).error ≠
      none ∧
    renderResult { text := "kk", isLoading := false, error := some "" } =
      .greetingText "kk" := by
  exact ⟨by decide, by decide⟩

/-- C6 (amended): the renderer is a pure function of the Greeting Result
producing one of three mutually exclusive outputs by priority: a non-null
and non-empty error renders the error message; otherwise non-empty text
renders the quoted greeting; otherwise the placeholder. -/
theorem render_priority (g : GreetingData) :
    (∀ e, g.error = some e → e ≠ "" → renderResult g = .errorMsg e) ∧
    ((g.error = none ∨ g.error = some "") → g.text ≠ "" →
      renderResult g = .greetingText g.text) ∧
    ((g.error = none ∨ g.error = some "") → g.text = "" →
      renderResult g = .placeholder) := by
  obtain ⟨t, l, e⟩ := g
  refine ⟨?_, ?_, ?_⟩
  · rintro e' rfl he
    simp [renderResult, truthyStr, he]
  · rintro (rfl | rfl) ht <;> simp [renderResult, truthyStr, ht]
  · rintro (rfl | rfl) rfl <;> simp [renderResult, truthyStr]

/-- Witness for C6: the three branches at concrete states. -/
theorem render_priority_witness :
    renderResult { text := "", isLoading := false, error := some "bad" } =
      .errorMsg "bad" ∧
    renderResult { text := "hey", isLoading := false, error := none } =
      .greetingText "hey" ∧
    renderResult { text := "", isLoading := false, error := none } =
      .placeholder :=
  ⟨(render_priority { text := "", isLoading := false, error := some "bad" }).1
      "bad" rfl (by decide),
   (render_priority { text := "hey", isLoading := false, error := none }).2.1
      (Or.inl rfl) (by decide),
   (render_priority { text := "", isLoading := false, error := none }).2.2
      (Or.inl rfl) rfl⟩

end GreetingWidget

namespace GreetingWidget

/-- C7: in every greeting state reachable from the initial state through
the orchestrator's updates, `isLoading` is never true together with a
non-null `error`; moreover every dispatch issues the error-clearing
loading update first, and every run ends with the resolution update,
which is fully determined by the API outcome (so text and error are
replaced together, never partially). -/
theorem loading_error_invariant :
    (∀ s : GreetingData, Reachable s → s.isLoading = true → s.error = none) ∧
    (∀ (name : String) (api : ApiResult) (prev : GreetingData),
      jsTrim name ≠ "" →
        (generateGreeting name api prev).states.head? = some (loadingState prev) ∧
        (loadingState prev).error = none ∧
        (generateGreeting name api prev).states.getLast? = some (resolvedState api)) := by
  constructor
  · intro s hs
    induction hs with
    | init => intro _; rfl
    | step name api hr hmem ih =>
      by_cases h : jsTrim name = ""
      · simp [generateGreeting, h] at hmem
      · rw [run_states_eq name api _ h] at hmem
        simp only [List.mem_cons, List.mem_singleton, List.not_mem_nil, or_false] at hmem
        rcases hmem with rfl | rfl
        · intro _; rfl
        · cases api with
          | success p => intro _; rfl
          | failure e => intro hL; simp [resolvedState] at hL
  · intro name api prev h
    rw [run_states_eq name api prev h]
    exact ⟨rfl, rfl, rfl⟩

/-- Witness for C7: the loading state issued for name `"Alice"` is
reachable and error-free, and the concrete failing run ends with the
resolution update. -/
theorem loading_error_invariant_witness :
    (loadingState initialGreeting).error = none ∧
    (generateGreeting "Alice" (.failure "x") initialGreeting).states.getLast? =
      some (resolvedState (.failure "x")) :=
  ⟨loading_error_invariant.1 (loadingState initialGreeting)
      (Reachable.step "Alice" (.failure "x") Reachable.init (by decide)) rfl,
   (loading_error_invariant.2 "Alice" (.failure "x") initialGreeting (by decide)).2.2⟩

/-- C8: for every greeting state and input text, the submission button is
disabled exactly when a request is loading or the input trims to empty. -/
theorem button_disabled_iff (g : GreetingData) (name : String) :
    buttonDisabled g name = true ↔ (g.isLoading = true ∨ jsTrim name = "") := by
  simp [buttonDisabled]

/-- Counterexample for C9: for the empty input the submission is a no-op,
so the final state is the prior state and is not independent of it — the
same double submission from two different starting states ends in two
different final states. -/
theorem idempotence_counterexample :
    finalGreeting "" (.success none) initialGreeting ≠
      finalGreeting "" (.success none)
        { text := "x", isLoading := false, error := none } := by
  decide

/-- C9 (amended): for every input that is non-empty after trimming,
submitting it twice sequentially with the API resolving the same way
yields the same final state both times, and that state is independent of
the prior state. -/
theorem submit_idempotent (name : String) (api : ApiResult)
    (p q : GreetingData) (h : jsTrim name ≠ "") :
    finalGreeting name api (finalGreeting name api p) =
      finalGreeting name api p ∧
    finalGreeting name api p = finalGreeting name api q := by
  simp [finalGreeting, generateGreeting, h]

/-- Witness for C9: concrete double submission of `"Alice"` from two
different starting states. -/
theorem submit_idempotent_witness :
    finalGreeting "Alice" (.success (some "Hi Alice!"))
        (finalGreeting "Alice" (.success (some "Hi Alice!")) initialGreeting) =
      finalGreeting "Alice" (.success (some "Hi Alice!")) initialGreeting ∧
    finalGreeting "Alice" (.success (some "Hi Alice!")) initialGreeting =
      finalGreeting "Alice" (.success (some "Hi Alice!"))
        { text := "", isLoading := false, error := some "old" } :=
  submit_idempotent "Alice" (.success (some "Hi Alice!")) initialGreeting
    { text := "", isLoading := false, error := some "old" } (by decide)

/-- C10: the fallback is substituted exactly for an absent or empty
payload; a non-empty payload — whitespace-only included — is stored
verbatim, and a whitespace-only greeting is rendered as quoted greeting
text, not as the placeholder. -/
theorem fallback_boundary :
    payloadText none = fallbackText ∧
    payloadText (some "") = fallbackText ∧
    (∀ s : String, s ≠ "" → payloadText (some s) = s) ∧
    (∀ s : String, jsTrim s = "" → s ≠ "" →
      renderResult (resolvedState (.success (some s))) = .greetingText s) := by
  refine ⟨rfl, rfl, ?_, ?_⟩
  · intro s hs
    simp [payloadText, hs]
  · intro s _ hs
    simp [resolvedState, payloadText, renderResult, truthyStr, hs]

/-- Witness for C10: the one-space payload is kept verbatim and rendered
as a quoted greeting. -/
theorem fallback_boundary_witness :
    payloadText (some " ") = " " ∧
    renderResult (resolvedState (.success (some " "))) = .greetingText " " :=
  ⟨fallback_boundary.2.2.1 " " (by decide),
   fallback_boundary.2.2.2 " " (by decide) (by decide)⟩

end GreetingWidget
